import Mathlib

/-!
Verification of the Library Rental Service backend (Express/Mongoose) domain
logic: Book inventory, Reader discounts, and the Rental lifecycle.

Shallow embedding conventions:
* Monetary amounts (JS `Number`) are modelled as exact rationals `ℚ`.
* Dates (JS `Date`) are modelled as milliseconds since the epoch, `Int`;
  `new Date()` becomes an explicit `now : Int` parameter.
* A Mongoose `document.save()` is modelled as schema validation (the path
  validators such as `min: 0`) followed by the user `pre('save')` hook,
  returning `Except String` — Mongoose runs validation before user
  `pre('save')` hooks, so hooks see validated input and their output is
  persisted unvalidated.
* Controller handlers become functions from the fetched documents and the
  relevant collection state to a result record carrying the persisted state
  plus an optional error (`http-errors` codes recorded by `Err.httpStatus`).
* `await` on a persistence call can also reject at the I/O level; where a
  claim is about such failure paths (rental-creation atomicity), the
  possible rejection of each persistence call is injected through an
  explicit oracle.
-/

namespace LibraryRental

/-- Milliseconds per day, the divisor `1000 * 60 * 60 * 24` used by the
source for day-span computations. -/
def msPerDay : ℚ := 86400000

/-- JS `Math.ceil` on an exact rational. -/
def jsCeil (q : ℚ) : Int := ⌈q⌉

/-! ## Book model (src/models/Book.js) -/

/-- A `Book` document: descriptive fields, monetary fields, copy counters
and the soft-delete flag. -/
structure Book where
  title : String
  author : String
  genre : String
  depositAmount : ℚ
  rentalPricePerDay : ℚ
  availableCopies : Int
  totalCopies : Int
  isActive : Bool
deriving Repr, DecidableEq

/-- The `isAvailable` virtual: `isActive && availableCopies > 0`. -/
def Book.isAvailable (b : Book) : Bool :=
  b.isActive && decide (0 < b.availableCopies)

/-- Book schema path validators: `depositAmount` min 0, `rentalPricePerDay`
min 0, `availableCopies` min 0, `totalCopies` min 1. -/
def Book.validationOk (b : Book) : Bool :=
  decide (0 ≤ b.depositAmount) && decide (0 ≤ b.rentalPricePerDay) &&
  decide (0 ≤ b.availableCopies) && decide (1 ≤ b.totalCopies)

/-- `book.save()`: path validation, then the `pre('save')` hook rejecting
`availableCopies > totalCopies`. -/
def Book.save (b : Book) : Except String Book :=
  if !b.validationOk then .error "Book validation failed"
  else if b.totalCopies < b.availableCopies then
    .error "Available copies cannot exceed total copies"
  else .ok b

/-- `book.rentCopy()`: guard on `isAvailable`, decrement, save. -/
def Book.rentCopy (b : Book) : Except String Book :=
  if !b.isAvailable then .error "No copies available"
  else Book.save { b with availableCopies := b.availableCopies - 1 }

/-- `book.returnCopy()`: guard `availableCopies >= totalCopies`, increment,
save. -/
def Book.returnCopy (b : Book) : Except String Book :=
  if b.totalCopies ≤ b.availableCopies then
    .error "Cannot return more copies than total"
  else Book.save { b with availableCopies := b.availableCopies + 1 }

/-- One inventory call against a book. -/
inductive BookOp
  | rent
  | release
deriving Repr, DecidableEq

/-- The persisted book state after one inventory call: unchanged when the
call throws (the document mutation was never saved). -/
def applyBookOp (b : Book) : BookOp → Book
  | .rent =>
    match b.rentCopy with
    | .ok b' => b'
    | .error _ => b
  | .release =>
    match b.returnCopy with
    | .ok b' => b'
    | .error _ => b

/-- The persisted book state after a sequence of inventory calls. -/
def applyBookOps (b : Book) (ops : List BookOp) : Book :=
  ops.foldl applyBookOp b

/-! ## Reader model (src/models/Reader.js) -/

/-- The reader `category` enum. -/
inductive ReaderCategory
  | regular
  | student
  | senior
  | employee
deriving Repr, DecidableEq

/-- A `Reader` document (fields relevant to the domain logic). -/
structure Reader where
  lastName : String
  firstName : String
  middleName : Option String
  address : String
  phone : String
  email : Option String
  category : ReaderCategory
  discountPercentage : ℚ
  isActive : Bool
deriving Repr, DecidableEq

/-- The fixed category → discount-percentage table of the reader
`pre('save')` hook (`switch(this.category)`): student 15, senior 20,
employee 10, default 0. -/
def categoryDiscount : ReaderCategory → ℚ
  | .student => 15
  | .senior => 20
  | .employee => 10
  | .regular => 0

/-- The reader `pre('save')` hook: overwrite `discountPercentage` from the
category table. -/
def Reader.preSave (r : Reader) : Reader :=
  { r with discountPercentage := categoryDiscount r.category }

/-- Reader schema path validators relevant here: `discountPercentage`
min 0 max 100 (checked on the pre-hook value). -/
def Reader.validationOk (r : Reader) : Bool :=
  decide (0 ≤ r.discountPercentage) && decide (r.discountPercentage ≤ 100)

/-- `reader.save()`: path validation, then the category-discount hook. -/
def Reader.save (r : Reader) : Except String Reader :=
  if !r.validationOk then .error "Reader validation failed"
  else .ok r.preSave

/-- `reader.calculateDiscountedPrice(originalPrice)`:
`max(0, originalPrice - (originalPrice * discountPercentage) / 100)`. -/
def Reader.calculateDiscountedPrice (r : Reader) (originalPrice : ℚ) : ℚ :=
  let discountAmount := originalPrice * r.discountPercentage / 100
  max 0 (originalPrice - discountAmount)

/-- The request body of `updateReader` (src/controllers/readerController.js):
the handler copies only the eight whitelisted fields (`lastName`,
`firstName`, `middleName`, `address`, `phone`, `email`, `category`,
`isActive`) out of `req.body`; a caller-supplied `discountPercentage` is
present in the body but never copied. -/
structure ReaderUpdate where
  lastName : Option String
  firstName : Option String
  middleName : Option String
  address : Option String
  phone : Option String
  email : Option String
  category : Option ReaderCategory
  isActive : Option Bool
  discountPercentage : Option ℚ
deriving Repr, DecidableEq

/-- The `fields.forEach` / `Object.assign(reader, updates)` step of
`updateReader`: apply exactly the whitelisted defined fields. -/
def applyReaderUpdates (r : Reader) (body : ReaderUpdate) : Reader :=
  { r with
    lastName := body.lastName.getD r.lastName
    firstName := body.firstName.getD r.firstName
    middleName := match body.middleName with
      | some m => some m
      | none => r.middleName
    address := body.address.getD r.address
    phone := body.phone.getD r.phone
    email := match body.email with
      | some e => some e
      | none => r.email
    category := body.category.getD r.category
    isActive := body.isActive.getD r.isActive }

/-! ## Rental model (src/models/Rental.js) -/

/-- The rental `status` enum. -/
inductive RentalStatus
  | active
  | overdue
  | returned
deriving Repr, DecidableEq

/-- A `Rental` document. Foreign references are identities (`Nat`). -/
structure Rental where
  bookId : Nat
  readerId : Nat
  issueDate : Int
  expectedReturnDate : Int
  actualReturnDate : Option Int
  depositAmount : ℚ
  rentalPricePerDay : ℚ
  fineAmount : ℚ
  discountAmount : ℚ
  totalAmount : ℚ
  status : RentalStatus
  notes : Option String
deriving Repr, DecidableEq

/-- Rental schema path validators: min 0 on `depositAmount`,
`rentalPricePerDay`, `fineAmount`, `discountAmount`, `totalAmount`
(checked on the pre-hook values), and `notes` maxlength 500. -/
def Rental.validationOk (r : Rental) : Bool :=
  decide (0 ≤ r.depositAmount) && decide (0 ≤ r.rentalPricePerDay) &&
  decide (0 ≤ r.fineAmount) && decide (0 ≤ r.discountAmount) &&
  decide (0 ≤ r.totalAmount) &&
  (match r.notes with
   | some s => decide (s.length ≤ 500)
   | none => true)

/-- The rental `pre('save')` hook: recompute `totalAmount` from
`endDate = actualReturnDate || now`,
`rentalDays = max(1, ceil((endDate - issueDate) / msPerDay))`, and derive
`status` (`returned` if `actualReturnDate` set, else `overdue` if
`now > expectedReturnDate`, else left unchanged). -/
def Rental.preSave (now : Int) (r : Rental) : Rental :=
  let endDate := r.actualReturnDate.getD now
  let rentalDays := max 1 (jsCeil (((endDate - r.issueDate : Int) : ℚ) / msPerDay))
  let total := r.rentalPricePerDay * (rentalDays : ℚ) + r.fineAmount - r.discountAmount
  let st :=
    if r.actualReturnDate.isSome then RentalStatus.returned
    else if r.expectedReturnDate < now then RentalStatus.overdue
    else r.status
  { r with totalAmount := total, status := st }

/-- `rental.save()`: path validation then the totals/status hook. -/
def Rental.save (now : Int) (r : Rental) : Except String Rental :=
  if !r.validationOk then .error "Rental validation failed"
  else .ok (r.preSave now)

/-- The `if (notes) this.notes = notes` step of `rental.returnBook`: an
absent or empty (falsy) notes argument leaves the stored notes alone. -/
def updatedNotes (oldNotes notesParam : Option String) : Option String :=
  match notesParam with
  | some s => if s = "" then oldNotes else some s
  | none => oldNotes

/-- `rental.returnBook(fineAmount = 0, notes = '')`: set
`actualReturnDate = now`, overwrite `fineAmount`, set status `returned`,
set `notes` only when truthy (non-empty), then save. -/
def Rental.returnBookDoc (r : Rental) (fineAmount : ℚ) (notesParam : Option String)
    (now : Int) : Except String Rental :=
  Rental.save now
    { r with
      actualReturnDate := some now
      fineAmount := fineAmount
      status := RentalStatus.returned
      notes := updatedNotes r.notes notesParam }

/-- `Rental.findOverdue()`: `this.find({ status: 'overdue' })` — a query on
the stored status field. -/
def findOverdue (rs : List Rental) : List Rental :=
  rs.filter fun r => decide (r.status = RentalStatus.overdue)

/-- Modelled from the spec (for comparison with `findOverdue`): the set of
rentals the list-overdue claim describes — no `actualReturnDate` set and
`expectedReturnDate` earlier than the query time `t`. -/
def overdueBySpec (t : Int) (rs : List Rental) : List Rental :=
  rs.filter fun r =>
    decide (r.actualReturnDate = none) && decide (r.expectedReturnDate < t)

/-! ## Controller layer (src/controllers) -/

/-- The `http-errors` failures raised by the controllers, plus database
failures surfaced by awaited persistence calls. -/
inductive Err
  | bookNotFound
  | bookUnavailable
  | readerNotFound
  | rentalLimit
  | rentalNotFound
  | alreadyReturned
  | duplicateBook
  | dbValidation (msg : String)
  | dbFailure (msg : String)
  | inventory (msg : String)
deriving Repr, DecidableEq

/-- The HTTP status each controller failure is created with
(`createError(status, message)`). -/
def Err.httpStatus : Err → Nat
  | .bookNotFound => 404
  | .bookUnavailable => 400
  | .readerNotFound => 404
  | .rentalLimit => 400
  | .rentalNotFound => 404
  | .alreadyReturned => 400
  | .duplicateBook => 409
  | .dbValidation _ => 500
  | .dbFailure _ => 500
  | .inventory _ => 500

/-- `calculateRentalDays(startDate, endDate)` (rental controller helper):
`Math.ceil((endDate - startDate) / (1000*60*60*24))` — no flooring at 1. -/
def calculateRentalDays (startDate endDate : Int) : Int :=
  jsCeil (((endDate - startDate : Int) : ℚ) / msPerDay)

/-- `calculateDiscountAmount(baseCost, discountedCost)` (rental controller
helper): `baseCost - discountedCost`. -/
def calculateDiscountAmount (baseCost discountedCost : ℚ) : ℚ :=
  baseCost - discountedCost

/-- The repository also carries an older revision of the rental controller
(src/controllers/rentalController.js) whose inline `discountAmount`
expression is `reader.calculateDiscountedPrice(base) - base` — the operands
of the subtraction swapped relative to its own step-4 comment ("base cost -
discounted cost") and to the refactored controller's
`calculateDiscountAmount`. -/
def legacyDiscountAmount (book : Book) (reader : Reader)
    (expectedReturnDate now : Int) : ℚ :=
  let baseCost := book.rentalPricePerDay *
    ((calculateRentalDays now expectedReturnDate : Int) : ℚ)
  reader.calculateDiscountedPrice baseCost - baseCost

/-- Injected outcomes of the awaited persistence calls inside
`createRental`: whether `rental.save()` and the save inside
`book.rentCopy()` are rejected at the I/O level. -/
structure CreateOracle where
  rentalSaveFails : Bool
  rentCopySaveFails : Bool
deriving Repr, DecidableEq

/-- Persisted state after a `createRental` request: the rental collection,
the book document, and the surfaced error if any. -/
structure CreateRentalResult where
  rentals : List Rental
  book : Option Book
  err : Option Err
deriving Repr, DecidableEq

/-- The `new Rental({...})` document constructed by `createRental`: pricing
computed with the controller helpers (`calculateRentalDays` applied to
`(new Date(), expectedReturnDate)`, base cost = price × days, discounted
cost from the reader, discount amount = base − discounted), the price and
deposit snapshotted from the book, and the remaining fields at their
schema defaults. -/
def newRentalDoc (book : Book) (reader : Reader) (bookId readerId : Nat)
    (expectedReturnDate now : Int) : Rental :=
  let rentalDays := calculateRentalDays now expectedReturnDate
  let baseCost := book.rentalPricePerDay * (rentalDays : ℚ)
  let discountedCost := reader.calculateDiscountedPrice baseCost
  { bookId := bookId
    readerId := readerId
    issueDate := now
    expectedReturnDate := expectedReturnDate
    actualReturnDate := none
    depositAmount := book.depositAmount
    rentalPricePerDay := book.rentalPricePerDay
    fineAmount := 0
    discountAmount := calculateDiscountAmount baseCost discountedCost
    totalAmount := 0
    status := RentalStatus.active
    notes := none }

/-- `createRental` (rental controller): look up book and reader, guard
availability and the active-rental limit (`countDocuments` on
`{reader, status: 'active'}`), build the priced rental document, then
`await rental.save()` followed by `await book.rentCopy()` — in that order
and with no compensation on failure. -/
def createRental (bookDoc : Option Book) (readerDoc : Option Reader)
    (rentals : List Rental) (bookId readerId : Nat)
    (expectedReturnDate now : Int) (oracle : CreateOracle) : CreateRentalResult :=
  match bookDoc with
  | none => ⟨rentals, none, some .bookNotFound⟩
  | some book =>
    if !book.isActive then ⟨rentals, some book, some .bookNotFound⟩
    else if !book.isAvailable then ⟨rentals, some book, some .bookUnavailable⟩
    else
      match readerDoc with
      | none => ⟨rentals, some book, some .readerNotFound⟩
      | some reader =>
        if !reader.isActive then ⟨rentals, some book, some .readerNotFound⟩
        else
          let activeRentals :=
            (rentals.filter fun r =>
              decide (r.readerId = readerId) &&
              decide (r.status = RentalStatus.active)).length
          if 3 ≤ activeRentals then ⟨rentals, some book, some .rentalLimit⟩
          else
            let newRental := newRentalDoc book reader bookId readerId expectedReturnDate now
            if oracle.rentalSaveFails then
              ⟨rentals, some book, some (.dbFailure "rental save rejected")⟩
            else
              match Rental.save now newRental with
              | .error m => ⟨rentals, some book, some (.dbValidation m)⟩
              | .ok saved =>
                let rentals' := rentals ++ [saved]
                if oracle.rentCopySaveFails then
                  ⟨rentals', some book, some (.dbFailure "book save rejected")⟩
                else
                  match book.rentCopy with
                  | .error m => ⟨rentals', some book, some (.inventory m)⟩
                  | .ok book' => ⟨rentals', some book', none⟩

/-- Persisted state after a `returnBook` request. -/
structure ReturnResult where
  rental : Rental
  book : Book
  err : Option Err
deriving Repr, DecidableEq

/-- `returnBook` (rental controller): reject when the stored status is
already `returned`, else `await rental.returnBook(fineAmount, notes)` then
`await rental.book.returnCopy()`. On a failed save the persisted rental is
the unmodified stored document. -/
def returnBookController (r : Rental) (b : Book) (fineAmount : ℚ)
    (notesParam : Option String) (now : Int) : ReturnResult :=
  if r.status = RentalStatus.returned then ⟨r, b, some .alreadyReturned⟩
  else
    match r.returnBookDoc fineAmount notesParam now with
    | .error m => ⟨r, b, some (.dbValidation m)⟩
    | .ok r' =>
      match b.returnCopy with
      | .error m => ⟨r', b, some (.inventory m)⟩
      | .ok b' => ⟨r', b', none⟩

/-- Persisted state after a `createBook` request. -/
structure CreateBookResult where
  books : List Book
  err : Option Err
deriving Repr, DecidableEq

/-- `createBook` (src/controllers/bookController.js): reject with 409 when
`findOne({ title, author })` matches an existing book, else persist a new
book with `availableCopies = totalCopies` and `isActive` defaulted true. -/
def createBook (books : List Book) (title author genre : String)
    (depositAmount rentalPricePerDay : ℚ) (totalCopies : Int) : CreateBookResult :=
  if books.any (fun b => decide (b.title = title) && decide (b.author = author)) then
    ⟨books, some .duplicateBook⟩
  else
    match Book.save
      { title := title
        author := author
        genre := genre
        depositAmount := depositAmount
        rentalPricePerDay := rentalPricePerDay
        availableCopies := totalCopies
        totalCopies := totalCopies
        isActive := true } with
    | .error m => ⟨books, some (.dbValidation m)⟩
    | .ok b => ⟨books ++ [b], none⟩

/-! ## Claim-side pricing formulas (§4.3 step 5 of the spec, stated for
comparison with the controller helpers) -/

/-- Modelled from the spec's pricing sentence:
`rentalDays = max(1, ceil((expectedReturnDate - now)/1 day))`. -/
def specRentalDays (now expectedReturnDate : Int) : Int :=
  max 1 (jsCeil (((expectedReturnDate - now : Int) : ℚ) / msPerDay))

/-- Modelled from the spec's pricing sentence:
`discountedPrice(basePrice) = basePrice × (1 - discountPercentage/100)`
floored at 0. -/
def specDiscountedPrice (basePrice discountPercentage : ℚ) : ℚ :=
  max 0 (basePrice * (1 - discountPercentage / 100))

/-- Modelled from the spec's pricing sentence: `baseCost` and
`discountAmount = baseCost - discountedPrice(baseCost)` with
`baseCost = rentalPricePerDay × rentalDays`. -/
def specDiscountAmount (rentalPricePerDay discountPercentage : ℚ)
    (now expectedReturnDate : Int) : ℚ :=
  let baseCost := rentalPricePerDay * (specRentalDays now expectedReturnDate : ℚ)
  baseCost - specDiscountedPrice baseCost discountPercentage

/-! ## Concrete sample documents (used by witnesses and counterexamples) -/

/-- A one-copy book whose counters sit at the boundary (0 of 0). -/
def bBoundary : Book :=
  { title := "Dune", author := "Herbert", genre := "SF", depositAmount := 0,
    rentalPricePerDay := 0, availableCopies := 0, totalCopies := 0,
    isActive := true }

/-- An unreturned rental stored with status `active` whose expected return
date (epoch) has long passed. -/
def rStale : Rental :=
  { bookId := 1, readerId := 1, issueDate := 0, expectedReturnDate := 0,
    actualReturnDate := none, depositAmount := 0, rentalPricePerDay := 0,
    fineAmount := 0, discountAmount := 0, totalAmount := 0,
    status := RentalStatus.active, notes := none }

/-- A same-day-return rental: issued and returned at time 0, with a
one-unit discount snapshot. -/
def rSameDay : Rental :=
  { bookId := 1, readerId := 1, issueDate := 0, expectedReturnDate := 86400000,
    actualReturnDate := some 0, depositAmount := 0, rentalPricePerDay := 5/2,
    fineAmount := 0, discountAmount := 1, totalAmount := 0,
    status := RentalStatus.active, notes := none }

/-- A regular reader whose stored discount is 0. -/
def rdRegular : Reader :=
  { lastName := "Doe", firstName := "Jo", middleName := none,
    address := "1 Main St", phone := "555-0100", email := none,
    category := ReaderCategory.regular, discountPercentage := 0,
    isActive := true }

/-- An update body that tries to set `discountPercentage` directly while
switching the category to `student`. -/
def updStudent : ReaderUpdate :=
  { lastName := none, firstName := none, middleName := none, address := none,
    phone := none, email := none, category := some ReaderCategory.student,
    isActive := none, discountPercentage := some 150 }

/-- An existing catalog book. -/
def bCatalog : Book :=
  { title := "Dune", author := "Herbert", genre := "SF", depositAmount := 20,
    rentalPricePerDay := 3, availableCopies := 2, totalCopies := 2,
    isActive := true }

/-- An available book priced at 2.50 per day. -/
def bPriced : Book :=
  { title := "Dune", author := "Herbert", genre := "SF", depositAmount := 10,
    rentalPricePerDay := 5/2, availableCopies := 3, totalCopies := 3,
    isActive := true }

/-- An active student reader (15% stored discount). -/
def rdStudent : Reader :=
  { lastName := "Doe", firstName := "Sam", middleName := none,
    address := "2 Main St", phone := "555-0101", email := none,
    category := ReaderCategory.student, discountPercentage := 15,
    isActive := true }

/-- Epoch milliseconds of 2024-01-01T00:00:00Z. -/
def jan1 : Int := 1704067200000

/-- Epoch milliseconds of 2024-01-15T00:00:00Z. -/
def jan15 : Int := 1705276800000

/-- First unreturned rental of reader 7, stored status `active`. -/
def rAct1 : Rental :=
  { bookId := 2, readerId := 7, issueDate := 0, expectedReturnDate := 864000000,
    actualReturnDate := none, depositAmount := 0, rentalPricePerDay := 1,
    fineAmount := 0, discountAmount := 0, totalAmount := 1,
    status := RentalStatus.active, notes := none }

/-- Second unreturned rental of reader 7, stored status `active`. -/
def rAct2 : Rental :=
  { rAct1 with bookId := 3 }

/-- Third unreturned rental of reader 7, stored status `active`. -/
def rAct3 : Rental :=
  { rAct1 with bookId := 4 }

/-- An unreturned rental of reader 7 whose stored status is `overdue`. -/
def rOvd : Rental :=
  { rAct1 with
      bookId := 5
      expectedReturnDate := 1
      status := RentalStatus.overdue }

/-- A book with every copy out (0 of 1 available). -/
def bEmpty : Book :=
  { title := "Solaris", author := "Lem", genre := "SF", depositAmount := 0,
    rentalPricePerDay := 0, availableCopies := 0, totalCopies := 1,
    isActive := true }

end LibraryRental

namespace LibraryRental

/-! ## Helper lemmas -/

theorem Book.save_ok_eq {b b' : Book} (h : Book.save b = .ok b') : b' = b := by
  unfold Book.save at h
  split_ifs at h
  exact (Except.ok.injEq .. ▸ h).symm

theorem Book.rentCopy_ok {b b' : Book} (h : b.rentCopy = .ok b') :
    b' = { b with availableCopies := b.availableCopies - 1 } ∧
      0 < b.availableCopies := by
  unfold Book.rentCopy at h
  by_cases hav : b.isAvailable = true
  · simp only [hav, Bool.not_true, Bool.false_eq_true, if_false] at h
    have hb := Book.save_ok_eq h
    have : 0 < b.availableCopies := by
      have := hav
      unfold Book.isAvailable at this
      simp only [Bool.and_eq_true, decide_eq_true_eq] at this
      exact this.2
    exact ⟨hb, this⟩
  · simp only [Bool.not_eq_true] at hav
    simp [hav] at h

theorem Book.returnCopy_ok {b b' : Book} (h : b.returnCopy = .ok b') :
    b' = { b with availableCopies := b.availableCopies + 1 } ∧
      b.availableCopies < b.totalCopies := by
  unfold Book.returnCopy at h
  split_ifs at h with hle
  exact ⟨(Book.save_ok_eq h).symm ▸ rfl, lt_of_not_le hle⟩

theorem applyBookOp_bounds (b : Book) (op : BookOp)
    (h0 : 0 ≤ b.availableCopies) (hle : b.availableCopies ≤ b.totalCopies) :
    0 ≤ (applyBookOp b op).availableCopies ∧
      (applyBookOp b op).availableCopies ≤ (applyBookOp b op).totalCopies := by
  cases op with
  | rent =>
    cases hres : b.rentCopy with
    | error m => simp only [applyBookOp, hres]; exact ⟨h0, hle⟩
    | ok b' =>
      obtain ⟨rfl, hpos⟩ := Book.rentCopy_ok hres
      simp only [applyBookOp, hres]
      constructor
      · show (0:Int) ≤ b.availableCopies - 1
        omega
      · show b.availableCopies - 1 ≤ b.totalCopies
        omega
  | release =>
    cases hres : b.returnCopy with
    | error m => simp only [applyBookOp, hres]; exact ⟨h0, hle⟩
    | ok b' =>
      obtain ⟨rfl, hlt⟩ := Book.returnCopy_ok hres
      simp only [applyBookOp, hres]
      constructor
      · show (0:Int) ≤ b.availableCopies + 1
        omega
      · show b.availableCopies + 1 ≤ b.totalCopies
        omega

/-! ## Claim theorems -/

/-- Claim C7: starting from a state with `0 ≤ availableCopies ≤ totalCopies`,
any sequence of `rentCopy`/`returnCopy` calls preserves the bounds; a
`rentCopy` at `availableCopies = 0` always throws and leaves the persisted
book unchanged, and a `returnCopy` at `availableCopies = totalCopies`
always throws and leaves the persisted book unchanged. -/
theorem book_inventory_invariant (b : Book) (ops : List BookOp)
    (h0 : 0 ≤ b.availableCopies) (hle : b.availableCopies ≤ b.totalCopies) :
    (0 ≤ (applyBookOps b ops).availableCopies ∧
      (applyBookOps b ops).availableCopies ≤ (applyBookOps b ops).totalCopies) ∧
    (b.availableCopies = 0 →
      b.rentCopy = .error "No copies available" ∧ applyBookOp b .rent = b) ∧
    (b.availableCopies = b.totalCopies →
      b.returnCopy = .error "Cannot return more copies than total" ∧
        applyBookOp b .release = b) := by
  refine ⟨?_, ?_, ?_⟩
  · induction ops generalizing b with
    | nil => exact ⟨h0, hle⟩
    | cons op rest ih =>
      have hstep := applyBookOp_bounds b op h0 hle
      simpa [applyBookOps, List.foldl] using ih (applyBookOp b op) hstep.1 hstep.2
  · intro hz
    have herr : b.rentCopy = .error "No copies available" := by
      unfold Book.rentCopy Book.isAvailable
      simp [hz]
    exact ⟨herr, by simp only [applyBookOp, herr]⟩
  · intro heq
    have herr : b.returnCopy = .error "Cannot return more copies than total" := by
      unfold Book.returnCopy
      rw [if_pos (le_of_eq heq.symm)]
    exact ⟨herr, by simp only [applyBookOp, herr]⟩

/-- Witness for C7 at a concrete boundary book and a concrete call
sequence. -/
theorem book_inventory_invariant_witness :
    (0 ≤ bBoundary.availableCopies ∧
      bBoundary.availableCopies ≤ bBoundary.totalCopies) ∧
    ((0 ≤ (applyBookOps bBoundary [BookOp.rent, BookOp.release]).availableCopies ∧
      (applyBookOps bBoundary [BookOp.rent, BookOp.release]).availableCopies ≤
        (applyBookOps bBoundary [BookOp.rent, BookOp.release]).totalCopies) ∧
    (bBoundary.availableCopies = 0 →
      bBoundary.rentCopy = .error "No copies available" ∧
        applyBookOp bBoundary .rent = bBoundary) ∧
    (bBoundary.availableCopies = bBoundary.totalCopies →
      bBoundary.returnCopy = .error "Cannot return more copies than total" ∧
        applyBookOp bBoundary .release = bBoundary)) :=
  ⟨by decide, book_inventory_invariant bBoundary [BookOp.rent, BookOp.release]
    (by decide) (by decide)⟩

/-- Claim C5: whenever a rental save succeeds, the persisted `totalAmount`
equals `rentalPricePerDay × rentalDays + fineAmount − discountAmount`, with
`rentalDays = max(1, ceil((endDate − issueDate)/1 day))` and `endDate` the
`actualReturnDate` when set, else the save time. -/
theorem totalAmount_invariant (now : Int) (r r' : Rental)
    (h : Rental.save now r = .ok r') :
    r'.totalAmount =
      r.rentalPricePerDay *
        ((max 1 (jsCeil (((r.actualReturnDate.getD now - r.issueDate : Int) : ℚ) /
          msPerDay)) : Int) : ℚ) + r.fineAmount - r.discountAmount := by
  unfold Rental.save at h
  split_ifs at h
  obtain rfl := (Except.ok.injEq .. ▸ h)
  rfl

/-- Witness for C5: a same-day return (`fineAmount = 0`) floors
`rentalDays` to 1, yielding `totalAmount = rentalPricePerDay × 1 −
discountAmount = 5/2 − 1 = 3/2`. -/
theorem totalAmount_invariant_witness :
    Rental.save 0 rSameDay = .ok (rSameDay.preSave 0) ∧
      (rSameDay.preSave 0).totalAmount = 3/2 := by
  have hs : Rental.save 0 rSameDay = .ok (rSameDay.preSave 0) := by
    norm_num [Rental.save, Rental.validationOk, rSameDay]
  refine ⟨hs, ?_⟩
  have h2 := totalAmount_invariant 0 rSameDay (rSameDay.preSave 0) hs
  rw [h2]
  norm_num [rSameDay, jsCeil, msPerDay]

/-- Claim C6: after any successful reader save — in particular after
`updateReader` applies an arbitrary request body, which may carry a
`discountPercentage` of its own — the persisted `discountPercentage` is
the fixed table value of the persisted `category` (student 15, senior 20,
employee 10, regular 0). Taking the update body all-absent covers plain
saves (creation, soft-delete, any other operation ending in `save()`). -/
theorem discountPercentage_derived (r : Reader) (body : ReaderUpdate)
    (r' : Reader) (h : Reader.save (applyReaderUpdates r body) = .ok r') :
    r'.discountPercentage = categoryDiscount r'.category ∧
      r'.category = body.category.getD r.category := by
  unfold Reader.save at h
  split_ifs at h
  obtain rfl := (Except.ok.injEq .. ▸ h)
  exact ⟨rfl, rfl⟩

/-- Witness for C6: a regular reader updated to `student` with a bogus
caller-supplied `discountPercentage = 150` stores exactly 15. -/
theorem discountPercentage_derived_witness :
    Reader.save (applyReaderUpdates rdRegular updStudent) =
      .ok (applyReaderUpdates rdRegular updStudent).preSave ∧
    ((applyReaderUpdates rdRegular updStudent).preSave.discountPercentage =
      categoryDiscount (applyReaderUpdates rdRegular updStudent).preSave.category ∧
      (applyReaderUpdates rdRegular updStudent).preSave.category =
        updStudent.category.getD rdRegular.category) ∧
    (applyReaderUpdates rdRegular updStudent).preSave.discountPercentage = 15 := by
  have hs : Reader.save (applyReaderUpdates rdRegular updStudent) =
      .ok (applyReaderUpdates rdRegular updStudent).preSave := by
    norm_num [Reader.save, Reader.validationOk, Reader.preSave,
      applyReaderUpdates, rdRegular, updStudent, categoryDiscount]
  refine ⟨hs, discountPercentage_derived rdRegular updStudent _ hs, ?_⟩
  norm_num [Reader.preSave, applyReaderUpdates, rdRegular, updStudent,
    categoryDiscount]

/-- Claim C10: creating a book whose `title` and `author` both match an
existing catalog entry fails with the 409 duplicate error and leaves the
catalog unchanged. -/
theorem createBook_duplicate_conflict (books : List Book) (b0 : Book)
    (title author genre : String) (depositAmount rentalPricePerDay : ℚ)
    (totalCopies : Int) (hmem : b0 ∈ books) (ht : b0.title = title)
    (ha : b0.author = author) :
    createBook books title author genre depositAmount rentalPricePerDay
        totalCopies = ⟨books, some .duplicateBook⟩ ∧
      Err.httpStatus .duplicateBook = 409 := by
  refine ⟨?_, rfl⟩
  unfold createBook
  rw [if_pos]
  exact List.any_eq_true.mpr ⟨b0, hmem, by simp [ht, ha]⟩

/-- Witness for C10 on a concrete one-book catalog. -/
theorem createBook_duplicate_conflict_witness :
    bCatalog ∈ [bCatalog] ∧
    (createBook [bCatalog] "Dune" "Herbert" "Novel" 5 1 4 =
        ⟨[bCatalog], some .duplicateBook⟩ ∧
      Err.httpStatus .duplicateBook = 409) :=
  ⟨by decide,
    createBook_duplicate_conflict [bCatalog] bCatalog "Dune" "Herbert" "Novel"
      5 1 4 (by decide) (by decide) (by decide)⟩

/-- Counterexample for C3: `rStale` has no `actualReturnDate` and its
`expectedReturnDate` (epoch 0) is one day before the query time, yet the
stored-status query `findOverdue` does not return it, while the claim's
read-time recomputation does. -/
theorem findOverdue_stale_cex :
    findOverdue [rStale] = [] ∧
      overdueBySpec 86400000 [rStale] = [rStale] ∧
      findOverdue [rStale] ≠ overdueBySpec 86400000 [rStale] := by
  decide

/-- Claim C3 amended: the list-overdue query filters on the status stored
at the last write. For a rental with no `actualReturnDate` persisted by a
save at time `tw`, membership in `findOverdue` is decided by `tw` (or a
previously stored `overdue` status), not by the query time: the rental is
listed iff its expected return date had already passed at save time or it
was already stored as overdue. -/
theorem findOverdue_stored_status (r r' : Rental) (tw : Int)
    (hsave : Rental.save tw r = .ok r') (hunret : r.actualReturnDate = none) :
    r' ∈ findOverdue [r'] ↔
      (r.expectedReturnDate < tw ∨ r.status = RentalStatus.overdue) := by
  unfold Rental.save at hsave
  split_ifs at hsave
  obtain rfl := (Except.ok.injEq .. ▸ hsave)
  unfold Rental.preSave findOverdue
  simp only [hunret, Option.isSome_none, Bool.false_eq_true, if_false,
    List.mem_filter, List.mem_singleton, true_and, decide_eq_true_eq]
  by_cases hlate : r.expectedReturnDate < tw
  · simp [hlate]
  · simp [hlate]

/-- Witness for C3 (amended): `rStale` saved at time 0 (not yet past due)
stays out of `findOverdue` even though the claim's recomputation at a later
query time would include it. -/
theorem findOverdue_stored_status_witness :
    Rental.save 0 rStale = .ok (rStale.preSave 0) ∧
      rStale.actualReturnDate = none ∧
      (rStale.preSave 0 ∈ findOverdue [rStale.preSave 0] ↔
        (rStale.expectedReturnDate < 0 ∨ rStale.status = RentalStatus.overdue)) := by
  have hs : Rental.save 0 rStale = .ok (rStale.preSave 0) := by
    norm_num [Rental.save, Rental.validationOk, rStale]
  exact ⟨hs, rfl, findOverdue_stored_status rStale _ 0 hs rfl⟩

/-- When the expected return date lies strictly in the future, the
controller's un-floored `calculateRentalDays` is at least 1 and therefore
coincides with the spec's floored `specRentalDays`. -/
theorem calculateRentalDays_pos (now expRet : Int) (h : now < expRet) :
    1 ≤ calculateRentalDays now expRet ∧
      calculateRentalDays now expRet = specRentalDays now expRet := by
  have hq : (0:ℚ) < ((expRet - now : Int) : ℚ) / msPerDay := by
    apply div_pos
    · exact_mod_cast sub_pos.mpr h
    · norm_num [msPerDay]
  have h1 : 1 ≤ jsCeil (((expRet - now : Int) : ℚ) / msPerDay) := by
    have := Int.ceil_pos.mpr hq
    unfold jsCeil
    omega
  refine ⟨h1, ?_⟩
  unfold specRentalDays calculateRentalDays
  exact (max_eq_right h1).symm

/-- The controller pricing (`baseCost − discountedPrice(baseCost)` via the
helpers) equals the spec's `specDiscountAmount` formula whenever the
expected return date is in the future. -/
theorem newRentalDoc_discount_spec (book : Book) (reader : Reader)
    (bookId readerId : Nat) (expRet now : Int) (h : now < expRet) :
    (newRentalDoc book reader bookId readerId expRet now).discountAmount =
      specDiscountAmount book.rentalPricePerDay reader.discountPercentage
        now expRet := by
  unfold newRentalDoc specDiscountAmount calculateDiscountAmount
    Reader.calculateDiscountedPrice specDiscountedPrice
  rw [(calculateRentalDays_pos now expRet h).2]
  ring_nf

/-- The computed discount amount is nonnegative for a nonnegative price and
discount percentage when the expected return date is in the future, so the
schema's `min: 0` validator on `discountAmount` passes. -/
theorem newRentalDoc_discount_nonneg (book : Book) (reader : Reader)
    (bookId readerId : Nat) (expRet now : Int) (h : now < expRet)
    (hprice : 0 ≤ book.rentalPricePerDay)
    (hdp : 0 ≤ reader.discountPercentage) :
    0 ≤ (newRentalDoc book reader bookId readerId expRet now).discountAmount := by
  have hday1 := (calculateRentalDays_pos now expRet h).1
  have hbase : 0 ≤ book.rentalPricePerDay * ((calculateRentalDays now expRet : Int) : ℚ) := by
    apply mul_nonneg hprice
    exact_mod_cast (by omega : (0:Int) ≤ calculateRentalDays now expRet)
  unfold newRentalDoc calculateDiscountAmount Reader.calculateDiscountedPrice
  refine sub_nonneg.mpr (max_le hbase ?_)
  apply sub_le_self
  exact div_nonneg (mul_nonneg hbase hdp) (by norm_num)

/-- Saving the freshly constructed rental document succeeds under the same
conditions: all monetary validators pass. -/
theorem newRentalDoc_save_ok (book : Book) (reader : Reader)
    (bookId readerId : Nat) (expRet now : Int) (h : now < expRet)
    (hdep : 0 ≤ book.depositAmount) (hprice : 0 ≤ book.rentalPricePerDay)
    (hdp : 0 ≤ reader.discountPercentage) :
    Rental.save now (newRentalDoc book reader bookId readerId expRet now) =
      .ok ((newRentalDoc book reader bookId readerId expRet now).preSave now) := by
  have hdisc := newRentalDoc_discount_nonneg book reader bookId readerId
    expRet now h hprice hdp
  have hval : Rental.validationOk
      (newRentalDoc book reader bookId readerId expRet now) = true := by
    simp only [Rental.validationOk, Bool.and_eq_true, decide_eq_true_eq]
    exact ⟨⟨⟨⟨⟨hdep, hprice⟩, le_refl 0⟩, hdisc⟩, le_refl 0⟩, rfl⟩
  unfold Rental.save
  rw [if_neg (by simp [hval])]

/-- Evaluation of `createRental` past its four guards: what remains is the
save-then-allocate tail. -/
theorem createRental_after_guards (book : Book) (reader : Reader)
    (rentals : List Rental) (bookId readerId : Nat) (expRet now : Int)
    (oracle : CreateOracle) (hba : book.isActive = true)
    (hava : 0 < book.availableCopies) (hra : reader.isActive = true)
    (hcount : (rentals.filter fun r =>
      decide (r.readerId = readerId) &&
      decide (r.status = RentalStatus.active)).length < 3) :
    createRental (some book) (some reader) rentals bookId readerId expRet now
        oracle =
      (if oracle.rentalSaveFails then
        ⟨rentals, some book, some (.dbFailure "rental save rejected")⟩
      else
        match Rental.save now (newRentalDoc book reader bookId readerId expRet now) with
        | .error m => ⟨rentals, some book, some (.dbValidation m)⟩
        | .ok saved =>
          if oracle.rentCopySaveFails then
            ⟨rentals ++ [saved], some book, some (.dbFailure "book save rejected")⟩
          else
            match book.rentCopy with
            | .error m => ⟨rentals ++ [saved], some book, some (.inventory m)⟩
            | .ok book' => ⟨rentals ++ [saved], some book', none⟩) := by
  have hav : book.isAvailable = true := by
    simp [Book.isAvailable, hba, hava]
  unfold createRental
  simp only [hba, hav, hra, Bool.not_true, Bool.false_eq_true, if_false]
  rw [if_neg (by omega)]

/-- Claim C1: a successful rental creation with a future expected return
date persists exactly one new rental whose stored `discountAmount` equals
the spec formula `baseCost − discountedPrice(baseCost)` with
`baseCost = rentalPricePerDay × max(1, ceil((expectedReturnDate − now)/1 day))`
and `discountedPrice(p) = max(0, p × (1 − discountPercentage/100))`. The
controller omits the `max(1, ·)` floor, but with the expected return date
in the future (the caller-validated precondition) the raw ceiling is
already ≥ 1, so the two formulas agree. -/
theorem createRental_pricing_spec (book : Book) (reader : Reader)
    (rentals : List Rental) (bookId readerId : Nat) (expRet now : Int)
    (hba : book.isActive = true) (hava : 0 < book.availableCopies)
    (hra : reader.isActive = true)
    (hcount : (rentals.filter fun r =>
      decide (r.readerId = readerId) &&
      decide (r.status = RentalStatus.active)).length < 3)
    (hfuture : now < expRet) (hdep : 0 ≤ book.depositAmount)
    (hprice : 0 ≤ book.rentalPricePerDay)
    (hdp : 0 ≤ reader.discountPercentage) :
    (createRental (some book) (some reader) rentals bookId readerId expRet
        now ⟨false, false⟩).rentals =
      rentals ++ [(newRentalDoc book reader bookId readerId expRet now).preSave now] ∧
    ((newRentalDoc book reader bookId readerId expRet now).preSave now).discountAmount =
      specDiscountAmount book.rentalPricePerDay reader.discountPercentage
        now expRet := by
  have hrun := createRental_after_guards book reader rentals bookId readerId
    expRet now ⟨false, false⟩ hba hava hra hcount
  have hsave := newRentalDoc_save_ok book reader bookId readerId expRet now
    hfuture hdep hprice hdp
  constructor
  · rw [hrun]
    simp only [hsave]
    cases hrc : book.rentCopy <;> simp
  · exact newRentalDoc_discount_spec book reader bookId readerId expRet now
      hfuture

/-- Witness for C1: the spec's own example — price 2.50/day, issue
2024-01-01, expected return 2024-01-15, student reader at 15% — gives
`baseCost = 35` and a stored `discountAmount = 5.25`. -/
theorem createRental_pricing_spec_witness :
    (bPriced.isActive = true ∧ 0 < bPriced.availableCopies ∧
      rdStudent.isActive = true ∧ jan1 < jan15 ∧
      0 ≤ bPriced.depositAmount ∧ 0 ≤ bPriced.rentalPricePerDay ∧
      0 ≤ rdStudent.discountPercentage) ∧
    ((createRental (some bPriced) (some rdStudent) [] 1 2 jan15 jan1
        ⟨false, false⟩).rentals =
      [] ++ [(newRentalDoc bPriced rdStudent 1 2 jan15 jan1).preSave jan1] ∧
    ((newRentalDoc bPriced rdStudent 1 2 jan15 jan1).preSave jan1).discountAmount =
      specDiscountAmount bPriced.rentalPricePerDay rdStudent.discountPercentage
        jan1 jan15) ∧
    bPriced.rentalPricePerDay * ((specRentalDays jan1 jan15 : Int) : ℚ) = 35 ∧
    specDiscountAmount bPriced.rentalPricePerDay rdStudent.discountPercentage
      jan1 jan15 = 21/4 := by
  refine ⟨by norm_num [bPriced, rdStudent, jan1, jan15], ?_, ?_, ?_⟩
  · exact createRental_pricing_spec bPriced rdStudent [] 1 2 jan15 jan1
      (by norm_num [bPriced]) (by norm_num [bPriced])
      (by norm_num [rdStudent]) (by decide)
      (by norm_num [jan1, jan15]) (by norm_num [bPriced])
      (by norm_num [bPriced]) (by norm_num [rdStudent])
  · norm_num [bPriced, specRentalDays, jsCeil, msPerDay, jan1, jan15]
  · norm_num [bPriced, rdStudent, specDiscountAmount, specRentalDays,
      specDiscountedPrice, jsCeil, msPerDay, jan1, jan15]

/-- Counterexample for C2: with the guards passing and the book save inside
`rentCopy` rejected (the copy allocation fails), the rental record has
already been persisted by the preceding `rental.save()` and stays behind,
contradicting the claim that an allocation failure aborts the operation
with no rental record persisted. -/
theorem createRental_not_atomic_cex :
    (createRental (some bPriced) (some rdStudent) [] 1 2 jan15 jan1
        ⟨false, true⟩).err = some (.dbFailure "book save rejected") ∧
    (createRental (some bPriced) (some rdStudent) [] 1 2 jan15 jan1
        ⟨false, true⟩).rentals =
      [(newRentalDoc bPriced rdStudent 1 2 jan15 jan1).preSave jan1] ∧
    (createRental (some bPriced) (some rdStudent) [] 1 2 jan15 jan1
        ⟨false, true⟩).book = some bPriced := by
  have hrun := createRental_after_guards bPriced rdStudent [] 1 2 jan15 jan1
    ⟨false, true⟩ (by norm_num [bPriced]) (by norm_num [bPriced])
    (by norm_num [rdStudent]) (by decide)
  have hsave := newRentalDoc_save_ok bPriced rdStudent 1 2 jan15 jan1
    (by norm_num [jan1, jan15]) (by norm_num [bPriced])
    (by norm_num [bPriced]) (by norm_num [rdStudent])
  rw [hrun]
  simp only [hsave]
  exact ⟨rfl, rfl, rfl⟩

/-- Claim C2 amended: `createRental` persists the rental first and
allocates the copy second, with no compensation in either direction. If
the rental save is rejected, nothing is persisted and the copy count is
untouched (no allocation has happened yet, so there is nothing to roll
back); if the copy allocation is rejected after the save, the error is
surfaced but the already-persisted rental record remains and
`availableCopies` is left undecremented. -/
theorem createRental_save_before_allocate (book : Book) (reader : Reader)
    (rentals : List Rental) (bookId readerId : Nat) (expRet now : Int)
    (b2 : Bool) (hba : book.isActive = true) (hava : 0 < book.availableCopies)
    (hra : reader.isActive = true)
    (hcount : (rentals.filter fun r =>
      decide (r.readerId = readerId) &&
      decide (r.status = RentalStatus.active)).length < 3)
    (hfuture : now < expRet) (hdep : 0 ≤ book.depositAmount)
    (hprice : 0 ≤ book.rentalPricePerDay)
    (hdp : 0 ≤ reader.discountPercentage) :
    createRental (some book) (some reader) rentals bookId readerId expRet now
        ⟨true, b2⟩ =
      ⟨rentals, some book, some (.dbFailure "rental save rejected")⟩ ∧
    createRental (some book) (some reader) rentals bookId readerId expRet now
        ⟨false, true⟩ =
      ⟨rentals ++ [(newRentalDoc book reader bookId readerId expRet now).preSave now],
        some book, some (.dbFailure "book save rejected")⟩ := by
  have hsave := newRentalDoc_save_ok book reader bookId readerId expRet now
    hfuture hdep hprice hdp
  constructor
  · rw [createRental_after_guards book reader rentals bookId readerId expRet
      now ⟨true, b2⟩ hba hava hra hcount]
    rfl
  · rw [createRental_after_guards book reader rentals bookId readerId expRet
      now ⟨false, true⟩ hba hava hra hcount]
    simp only [hsave]
    rfl

/-- Witness for C2 (amended) at the concrete student-reader scenario. -/
theorem createRental_save_before_allocate_witness :
    (bPriced.isActive = true ∧ 0 < bPriced.availableCopies ∧
      rdStudent.isActive = true ∧ jan1 < jan15) ∧
    (createRental (some bPriced) (some rdStudent) [] 1 2 jan15 jan1
        ⟨true, false⟩ =
      ⟨[], some bPriced, some (.dbFailure "rental save rejected")⟩ ∧
    createRental (some bPriced) (some rdStudent) [] 1 2 jan15 jan1
        ⟨false, true⟩ =
      ⟨[] ++ [(newRentalDoc bPriced rdStudent 1 2 jan15 jan1).preSave jan1],
        some bPriced, some (.dbFailure "book save rejected")⟩) :=
  ⟨by norm_num [bPriced, rdStudent, jan1, jan15],
    createRental_save_before_allocate bPriced rdStudent [] 1 2 jan15 jan1
      false (by norm_num [bPriced]) (by norm_num [bPriced])
      (by norm_num [rdStudent]) (by decide) (by norm_num [jan1, jan15])
      (by norm_num [bPriced]) (by norm_num [bPriced])
      (by norm_num [rdStudent])⟩

/-- Counterexample for C4: reader 7 holds three unreturned rentals, one of
them stored as `overdue`; the limit check counts only stored-`active`
rentals (two here), so the creation succeeds and persists a fourth rental,
contradicting the claim that it must fail with the rental-limit error. -/
theorem rentalLimit_ignores_overdue_cex :
    ([rAct1, rAct2, rOvd].filter fun r =>
        decide (r.readerId = 7) && decide (r.actualReturnDate = none)).length = 3 ∧
    (createRental (some bPriced) (some rdStudent) [rAct1, rAct2, rOvd] 1 7
        jan15 jan1 ⟨false, false⟩).err = none ∧
    (createRental (some bPriced) (some rdStudent) [rAct1, rAct2, rOvd] 1 7
        jan15 jan1 ⟨false, false⟩).rentals.length = 4 := by
  refine ⟨by decide, ?_⟩
  have hrun := createRental_after_guards bPriced rdStudent
    [rAct1, rAct2, rOvd] 1 7 jan15 jan1 ⟨false, false⟩
    (by norm_num [bPriced]) (by norm_num [bPriced])
    (by norm_num [rdStudent]) (by decide)
  have hsave := newRentalDoc_save_ok bPriced rdStudent 1 7 jan15 jan1
    (by norm_num [jan1, jan15]) (by norm_num [bPriced])
    (by norm_num [bPriced]) (by norm_num [rdStudent])
  have hrc : bPriced.rentCopy = .ok { bPriced with availableCopies := 2 } := by
    norm_num [Book.rentCopy, Book.save, Book.isAvailable, Book.validationOk,
      bPriced]
  rw [hrun]
  simp only [hsave, hrc]
  exact ⟨rfl, rfl⟩

/-- Claim C4 amended: the rental-limit guard counts the reader's rentals
whose *stored* status is `active`; when that count is already ≥ 3 the
creation fails with the limit error and persists nothing. Unreturned
rentals stored as `overdue` do not count toward the limit. -/
theorem rentalLimit_counts_active_status (book : Book) (reader : Reader)
    (rentals : List Rental) (bookId readerId : Nat) (expRet now : Int)
    (oracle : CreateOracle) (hba : book.isActive = true)
    (hava : 0 < book.availableCopies) (hra : reader.isActive = true)
    (hcount3 : 3 ≤ (rentals.filter fun r =>
      decide (r.readerId = readerId) &&
      decide (r.status = RentalStatus.active)).length) :
    createRental (some book) (some reader) rentals bookId readerId expRet now
        oracle = ⟨rentals, some book, some .rentalLimit⟩ := by
  have hav : book.isAvailable = true := by
    simp [Book.isAvailable, hba, hava]
  unfold createRental
  simp only [hba, hav, hra, Bool.not_true, Bool.false_eq_true, if_false]
  rw [if_pos hcount3]

/-- Witness for C4 (amended): three stored-`active` rentals block a fourth. -/
theorem rentalLimit_counts_active_status_witness :
    (bPriced.isActive = true ∧ 0 < bPriced.availableCopies ∧
      rdStudent.isActive = true ∧
      3 ≤ ([rAct1, rAct2, rAct3].filter fun r =>
        decide (r.readerId = 7) &&
        decide (r.status = RentalStatus.active)).length) ∧
    createRental (some bPriced) (some rdStudent) [rAct1, rAct2, rAct3] 1 7
        jan15 jan1 ⟨false, false⟩ =
      ⟨[rAct1, rAct2, rAct3], some bPriced, some .rentalLimit⟩ :=
  ⟨by refine ⟨by decide, by decide, by decide, by decide⟩,
    rentalLimit_counts_active_status bPriced rdStudent [rAct1, rAct2, rAct3]
      1 7 jan15 jan1 ⟨false, false⟩ (by decide) (by decide) (by decide)
      (by decide)⟩

/-- The older controller revision's inline pricing stores exactly the
negation of the refactored controller's discount amount: for any discounted
rental it would be negative and the schema's `min: 0` validator would
reject the save. -/
theorem legacyDiscountAmount_negated (book : Book) (reader : Reader)
    (bookId readerId : Nat) (expRet now : Int) :
    legacyDiscountAmount book reader expRet now =
      -(newRentalDoc book reader bookId readerId expRet now).discountAmount := by
  unfold legacyDiscountAmount newRentalDoc calculateDiscountAmount
  ring

/-- When the document-level `returnBook` succeeds, the persisted rental has
`actualReturnDate = now`, `fineAmount` as passed, and status `returned`. -/
theorem Rental.returnBookDoc_ok {r r' : Rental} {f : ℚ} {n : Option String}
    {now : Int} (h : r.returnBookDoc f n now = .ok r') :
    r'.status = RentalStatus.returned ∧ r'.actualReturnDate = some now ∧
      r'.fineAmount = f := by
  unfold Rental.returnBookDoc Rental.save at h
  split_ifs at h
  obtain rfl := (Except.ok.injEq .. ▸ h)
  exact ⟨rfl, rfl, rfl⟩

/-- When the `returnBook` controller reports no error, the persisted rental
is stored with status `returned`, return date `now`, and the passed fine. -/
theorem returnBookController_ok_fields (r : Rental) (b : Book) (f : ℚ)
    (n : Option String) (t : Int)
    (h : (returnBookController r b f n t).err = none) :
    (returnBookController r b f n t).rental.status = RentalStatus.returned ∧
      (returnBookController r b f n t).rental.actualReturnDate = some t ∧
      (returnBookController r b f n t).rental.fineAmount = f := by
  unfold returnBookController at h ⊢
  by_cases hr : r.status = RentalStatus.returned
  · rw [if_pos hr] at h
    simp at h
  · rw [if_neg hr] at h ⊢
    cases hdoc : r.returnBookDoc f n t with
    | error m => simp only [hdoc] at h; simp at h
    | ok r1 =>
      simp only [hdoc] at h ⊢
      cases hbc : b.returnCopy with
      | error m => simp only [hbc] at h; simp at h
      | ok b1 =>
        simp only [hbc]
        exact Rental.returnBookDoc_ok hdoc

/-- Claim C8: if a first `returnBook` request succeeds, a second request on
the persisted record fails with the already-returned error (the spec's
`Conflict`/`AlreadyReturned` kind; the controller creates it with HTTP
status 400) and changes nothing: the persisted rental — in particular the
`totalAmount` and `fineAmount` the first return computed — and the book
are exactly those left by the first return. -/
theorem double_return_conflict (r : Rental) (b : Book) (f1 f2 : ℚ)
    (n1 n2 : Option String) (t1 t2 : Int)
    (h1 : (returnBookController r b f1 n1 t1).err = none) :
    returnBookController (returnBookController r b f1 n1 t1).rental
        (returnBookController r b f1 n1 t1).book f2 n2 t2 =
      ⟨(returnBookController r b f1 n1 t1).rental,
        (returnBookController r b f1 n1 t1).book, some .alreadyReturned⟩ ∧
    (returnBookController r b f1 n1 t1).rental.fineAmount = f1 := by
  obtain ⟨hst, _, hfine⟩ := returnBookController_ok_fields r b f1 n1 t1 h1
  have hstop : ∀ (rr : Rental) (bb : Book),
      rr.status = RentalStatus.returned →
      returnBookController rr bb f2 n2 t2 = ⟨rr, bb, some .alreadyReturned⟩ := by
    intro rr bb hrr
    unfold returnBookController
    rw [if_pos hrr]
  exact ⟨hstop _ _ hst, hfine⟩

/-- Witness for C8: a concrete rental returned at time 100 with fine 2; the
second return attempt at time 200 is rejected and leaves the record
unchanged. -/
theorem double_return_conflict_witness :
    (returnBookController rStale bEmpty 2 none 100).err = none ∧
    (returnBookController (returnBookController rStale bEmpty 2 none 100).rental
        (returnBookController rStale bEmpty 2 none 100).book 9 none 200 =
      ⟨(returnBookController rStale bEmpty 2 none 100).rental,
        (returnBookController rStale bEmpty 2 none 100).book,
        some .alreadyReturned⟩ ∧
    (returnBookController rStale bEmpty 2 none 100).rental.fineAmount = 2) := by
  have h1 : (returnBookController rStale bEmpty 2 none 100).err = none := by
    norm_num [returnBookController, Rental.returnBookDoc, updatedNotes,
      Rental.save, Rental.validationOk, Rental.preSave, Book.returnCopy,
      Book.save, Book.validationOk, rStale, bEmpty]
    rfl
  exact ⟨h1, double_return_conflict rStale bEmpty 2 9 none none 100 200 h1⟩

/-- Counterexample for C9: returning a not-yet-returned rental with a
negative `fineAmount` does not succeed with the fine clamped to 0 — the
schema's `min: 0` validator rejects the save, the request fails, and the
stored record is unchanged. -/
theorem returnBook_negative_fine_cex :
    rStale.status ≠ RentalStatus.returned ∧
    returnBookController rStale bEmpty (-1) none 100 =
      ⟨rStale, bEmpty, some (.dbValidation "Rental validation failed")⟩ := by
  refine ⟨by decide, ?_⟩
  norm_num [returnBookController, Rental.returnBookDoc, updatedNotes,
    Rental.save, Rental.validationOk, rStale]
  exact fun h => absurd h (by decide)

/-- Claim C9 amended: for a nonnegative caller-supplied `fineAmount` (and a
record and book passing the schema validators, with a copy slot free), the
return succeeds: it stores `actualReturnDate = now`, the fine as passed
(no clamping is performed; a negative fine instead fails validation),
`notes` when provided non-empty, status `returned`, the recomputed
`totalAmount`, and increments the book's available copies. -/
theorem returnBook_success_spec (r : Rental) (b : Book) (fine : ℚ)
    (notesParam : Option String) (now : Int)
    (hnr : ¬ r.status = RentalStatus.returned) (hfine : 0 ≤ fine)
    (hdep : 0 ≤ r.depositAmount) (hprice : 0 ≤ r.rentalPricePerDay)
    (hdisc : 0 ≤ r.discountAmount) (htot : 0 ≤ r.totalAmount)
    (hnotesOld : ∀ s, r.notes = some s → s.length ≤ 500)
    (hnotesNew : ∀ s, notesParam = some s → s.length ≤ 500)
    (hdepB : 0 ≤ b.depositAmount) (hpriceB : 0 ≤ b.rentalPricePerDay)
    (havB : 0 ≤ b.availableCopies) (htotB : 1 ≤ b.totalCopies)
    (hroom : b.availableCopies < b.totalCopies) :
    (returnBookController r b fine notesParam now).err = none ∧
    (returnBookController r b fine notesParam now).rental.actualReturnDate =
      some now ∧
    (returnBookController r b fine notesParam now).rental.fineAmount = fine ∧
    (returnBookController r b fine notesParam now).rental.status =
      RentalStatus.returned ∧
    (returnBookController r b fine notesParam now).rental.notes =
      updatedNotes r.notes notesParam ∧
    (returnBookController r b fine notesParam now).rental.totalAmount =
      r.rentalPricePerDay *
        ((max 1 (jsCeil (((now - r.issueDate : Int) : ℚ) / msPerDay)) : Int) : ℚ) +
        fine - r.discountAmount ∧
    (returnBookController r b fine notesParam now).book.availableCopies =
      b.availableCopies + 1 := by
  have hnotes : (match updatedNotes r.notes notesParam with
      | some s => decide (s.length ≤ 500)
      | none => true) = true := by
    cases notesParam with
    | none =>
      simp only [updatedNotes]
      cases hn : r.notes with
      | none => rfl
      | some s => simp [hnotesOld s hn]
    | some s =>
      simp only [updatedNotes]
      by_cases hs : s = ""
      · rw [if_pos hs]
        cases hn : r.notes with
        | none => rfl
        | some s2 => simp [hnotesOld s2 hn]
      · rw [if_neg hs]
        simp [hnotesNew s rfl]
  have hdocval : Rental.validationOk
      { r with
          actualReturnDate := some now
          fineAmount := fine
          status := RentalStatus.returned
          notes := updatedNotes r.notes notesParam } = true := by
    simp only [Rental.validationOk, Bool.and_eq_true, decide_eq_true_eq]
    exact ⟨⟨⟨⟨⟨hdep, hprice⟩, hfine⟩, hdisc⟩, htot⟩, hnotes⟩
  have hdoc : r.returnBookDoc fine notesParam now =
      .ok (Rental.preSave now
        { r with
            actualReturnDate := some now
            fineAmount := fine
            status := RentalStatus.returned
            notes := updatedNotes r.notes notesParam }) := by
    unfold Rental.returnBookDoc Rental.save
    rw [if_neg (by simp [hdocval])]
  have hbval : Book.validationOk
      { b with availableCopies := b.availableCopies + 1 } = true := by
    simp only [Book.validationOk, Bool.and_eq_true, decide_eq_true_eq]
    refine ⟨⟨⟨hdepB, hpriceB⟩, ?_⟩, htotB⟩
    show (0:Int) ≤ b.availableCopies + 1
    omega
  have hbc : b.returnCopy =
      .ok { b with availableCopies := b.availableCopies + 1 } := by
    have h3 : ¬(({ b with availableCopies := b.availableCopies + 1 } : Book).totalCopies <
        ({ b with availableCopies := b.availableCopies + 1 } : Book).availableCopies) := by
      show ¬(b.totalCopies < b.availableCopies + 1)
      omega
    unfold Book.returnCopy Book.save
    rw [if_neg (not_le.mpr hroom), if_neg (by simp [hbval]), if_neg h3]
  unfold returnBookController
  rw [if_neg hnr]
  simp only [hdoc, hbc]
  and_intros <;> trivial

/-- Witness for C9 (amended): returning `rStale` with fine 2 and notes
"late" at time 100 persists the return and bumps the book's copies. -/
theorem returnBook_success_spec_witness :
    (¬ rStale.status = RentalStatus.returned ∧ (0:ℚ) ≤ 2 ∧
      bEmpty.availableCopies < bEmpty.totalCopies) ∧
    ((returnBookController rStale bEmpty 2 (some "late") 100).err = none ∧
    (returnBookController rStale bEmpty 2 (some "late") 100).rental.actualReturnDate =
      some 100 ∧
    (returnBookController rStale bEmpty 2 (some "late") 100).rental.fineAmount = 2 ∧
    (returnBookController rStale bEmpty 2 (some "late") 100).rental.status =
      RentalStatus.returned ∧
    (returnBookController rStale bEmpty 2 (some "late") 100).rental.notes =
      updatedNotes rStale.notes (some "late") ∧
    (returnBookController rStale bEmpty 2 (some "late") 100).rental.totalAmount =
      rStale.rentalPricePerDay *
        ((max 1 (jsCeil (((100 - rStale.issueDate : Int) : ℚ) / msPerDay)) : Int) : ℚ) +
        2 - rStale.discountAmount ∧
    (returnBookController rStale bEmpty 2 (some "late") 100).book.availableCopies =
      bEmpty.availableCopies + 1) :=
  ⟨⟨by decide, by norm_num, by decide⟩,
    returnBook_success_spec rStale bEmpty 2 (some "late") 100 (by decide)
      (by norm_num) (by norm_num [rStale]) (by norm_num [rStale])
      (by norm_num [rStale]) (by norm_num [rStale])
      (by intro s hs; exact Option.noConfusion hs)
      (by intro s hs; cases hs; decide)
      (by norm_num [bEmpty]) (by norm_num [bEmpty]) (by decide) (by decide)
      (by decide)⟩

end LibraryRental
